import Mathlib

/-!
Shallow embedding of the OpenClaw unified durable message lifecycle
(message_turns / message_outbox journals, dispatch driver and recovery
helpers) and proofs about the behaviour of its operations.

Conventions of the embedding:
* SQL tables are lists of row structures; `UPDATE ... WHERE p` is a
  `List.map` that rewrites exactly the rows satisfying `p`.
* JavaScript timestamps (`Date.now()` milliseconds) are `Int`; attempt
  counters are `Nat`.
* A JSON payload column is stored in parsed form: `Except String P`
  models a TEXT column whose content either parses (`.ok`) or fails
  `JSON.parse` with an error message (`.error msg`).
* JavaScript string helpers (`trim`, `toLowerCase`, substring test,
  `Number` parsing of integer strings) are re-implemented structurally
  over `String.data` so that all definitions reduce by `decide`.
-/

namespace OpenClaw

/-! ## JavaScript string primitives -/

/-- Whitespace characters removed by `String.prototype.trim` (the model
covers the ASCII whitespace actually occurring in this code base). -/
def isJsWhitespace (c : Char) : Bool :=
  c == ' ' || c == '\t' || c == '\n' || c == '\r'

/-- Drop leading and trailing whitespace from a character list. -/
def trimChars (l : List Char) : List Char :=
  ((l.dropWhile isJsWhitespace).reverse.dropWhile isJsWhitespace).reverse

/-- JavaScript `s.trim()`. -/
def jsTrim (s : String) : String := ⟨trimChars s.data⟩

/-- ASCII lower-casing of one character (JS `toLowerCase` on the ASCII
strings used by the delivery code). -/
def asciiLowerChar (c : Char) : Char :=
  if 'A' ≤ c ∧ c ≤ 'Z' then Char.ofNat (c.toNat + 32) else c

/-- JavaScript `s.toLowerCase()` (ASCII). -/
def jsToLower (s : String) : String := ⟨s.data.map asciiLowerChar⟩

/-- Does `pat` occur as a contiguous substring of `l`? -/
def charsContain (pat : List Char) : List Char → Bool
  | [] => pat.isEmpty
  | c :: t => pat.isPrefixOf (c :: t) || charsContain pat t

/-- Substring test: `containsSubstr s pat` holds when `pat` occurs in `s`. -/
def containsSubstr (s pat : String) : Bool := charsContain pat.data s.data

/-- `readString`-style normalisation of one optional string field: trim,
and treat the empty result as absent. -/
def normStr : Option String → Option String
  | none => none
  | some s => let t := jsTrim s; if t = "" then none else some t

/-- Parse a list of decimal digits (JS `Number` on all-digit strings). -/
def parseNatChars (acc : Nat) : List Char → Option Nat
  | [] => some acc
  | c :: t => if '0' ≤ c ∧ c ≤ '9' then parseNatChars (acc * 10 + (c.toNat - 48)) t else none

/-- Parse an optionally minus-signed decimal integer string. Strings that
JS `Number` would accept but that are not plain decimal integers (floats,
exponents, hex, leading plus) return `none`; the caller's canonical-form
check `toString n = t` makes the model agree with the source on those. -/
def parseIntChars : List Char → Option Int
  | [] => none
  | '-' :: rest =>
    if rest.isEmpty then none else (parseNatChars 0 rest).map (fun n => -(n : Int))
  | l => (parseNatChars 0 l).map (fun n => (n : Int))

/-! ## Canonical inbound context (`MsgContext`) -/

/-- A Telegram-style thread identifier: `string | number` in the source. -/
inductive ThreadVal where
  | str (s : String)
  | num (n : Int)
deriving DecidableEq

/-- JS `String(value)` on a thread id. -/
def threadValToString : ThreadVal → String
  | .str s => s
  | .num n => toString n

/-- The canonical inbound context fields serialised by
`buildStoredPayload` (src/infra/message-lifecycle payload columns). -/
structure MsgContext where
  Body : Option String := none
  BodyForAgent : Option String := none
  BodyForCommands : Option String := none
  RawBody : Option String := none
  CommandBody : Option String := none
  From : Option String := none
  To : Option String := none
  SessionKey : Option String := none
  AccountId : Option String := none
  MessageSid : Option String := none
  MessageSidFull : Option String := none
  MessageTurnId : Option String := none
  ReplyToId : Option String := none
  ChatType : Option String := none
  Provider : Option String := none
  Surface : Option String := none
  OriginatingChannel : Option String := none
  OriginatingTo : Option String := none
  CommandAuthorized : Option Bool := none
  CommandSource : Option String := none
  CommandTargetSessionKey : Option String := none
  SenderId : Option String := none
  SenderName : Option String := none
  SenderUsername : Option String := none
  SenderE164 : Option String := none
  WasMentioned : Option Bool := none
  IsForum : Option Bool := none
  Timestamp : Option Int := none
  MessageThreadId : Option ThreadVal := none
  ConversationLabel : Option String := none
  GroupSubject : Option String := none
  GroupChannel : Option String := none
  GroupSpace : Option String := none
  GroupMembers : Option String := none
  HookMessages : Option (List String) := none
deriving DecidableEq

attribute [ext] MsgContext

/-- First present (possibly empty) value: JS `a ?? b`. -/
def nullish (a b : Option String) : Option String :=
  match a with
  | some x => some x
  | none => b

/-! ## Inbound dedupe key (src/auto-reply/reply/inbound-dedupe.ts) -/

/-- `normalizeProvider`: trim + lower-case, empty collapsing to `""`. -/
def normalizeProvider (value : Option String) : String :=
  match value with
  | some v => jsToLower (jsTrim v)
  | none => ""

/-- `resolveInboundPeerId`: `OriginatingTo ?? To ?? From ?? SessionKey`. -/
def resolveInboundPeerId (ctx : MsgContext) : Option String :=
  nullish ctx.OriginatingTo (nullish ctx.To (nullish ctx.From ctx.SessionKey))

/-- Join the non-empty components with a `|` separator
(`[...].filter(Boolean).join("|")`). -/
def joinNonEmpty (parts : List String) : String :=
  ⟨List.intercalate ['|'] ((parts.filter (fun p => p ≠ "")).map String.data)⟩

/-- `buildInboundDedupeKey(ctx)`: null unless provider, MessageSid and a
peer id are all present, else the deterministic joined key. -/
def buildInboundDedupeKey (ctx : MsgContext) : Option String :=
  let provider := normalizeProvider (nullish ctx.OriginatingChannel (nullish ctx.Provider ctx.Surface))
  let messageId := (ctx.MessageSid.map jsTrim).getD ""
  if provider = "" ∨ messageId = "" then none
  else
    let peerId := (resolveInboundPeerId ctx).getD ""
    if peerId = "" then none
    else
      let sessionKey := (ctx.SessionKey.map jsTrim).getD ""
      let accountId := (ctx.AccountId.map jsTrim).getD ""
      let threadId :=
        match ctx.MessageThreadId with
        | some tv => threadValToString tv
        | none => ""
      some (joinNonEmpty [provider, accountId, sessionKey, peerId, threadId, messageId])

/-! ## Turn rows (message_turns) -/

/-- Turn lifecycle states (src/infra/message-lifecycle `TurnStatus`). -/
inductive TurnStatus where
  | accepted
  | running
  | delivery_pending
  | failed_retryable
  | delivered
  | aborted
  | failed_terminal
deriving DecidableEq

/-- The four non-terminal states (`NON_TERMINAL_STATES`). -/
def nonTerminalTurn (s : TurnStatus) : Bool :=
  s == .accepted || s == .running || s == .delivery_pending || s == .failed_retryable

/-- Terminal turn states: `delivered`, `aborted`, `failed_terminal`. -/
def isTerminalTurn (s : TurnStatus) : Bool := !(nonTerminalTurn s)

/-- `stringifyOptional` on a `string | number` value: numbers print via
`String(value)`, strings trim with empty collapsing to undefined. -/
def stringifyThreadVal : Option ThreadVal → Option String
  | some (.num n) => some (toString n)
  | some (.str s) => normStr (some s)
  | none => none

/-- The serialised canonical payload written by `buildStoredPayload`
(JSON object with exactly these canonical keys; absent = undefined). -/
structure StoredPayload where
  Body : Option String := none
  BodyForAgent : Option String := none
  BodyForCommands : Option String := none
  RawBody : Option String := none
  CommandBody : Option String := none
  From : Option String := none
  To : Option String := none
  SessionKey : Option String := none
  AccountId : Option String := none
  MessageSid : Option String := none
  MessageSidFull : Option String := none
  MessageTurnId : Option String := none
  ReplyToId : Option String := none
  ChatType : Option String := none
  Provider : Option String := none
  Surface : Option String := none
  OriginatingChannel : Option String := none
  OriginatingTo : Option String := none
  CommandAuthorized : Option Bool := none
  CommandSource : Option String := none
  CommandTargetSessionKey : Option String := none
  SenderId : Option String := none
  SenderName : Option String := none
  SenderUsername : Option String := none
  SenderE164 : Option String := none
  WasMentioned : Option Bool := none
  IsForum : Option Bool := none
  Timestamp : Option Int := none
  MessageThreadId : Option String := none
  ConversationLabel : Option String := none
  GroupSubject : Option String := none
  GroupChannel : Option String := none
  GroupSpace : Option String := none
  GroupMembers : Option String := none
  HookMessages : Option (List String) := none
deriving DecidableEq

/-- `buildStoredPayload(ctx)`: serialise the canonical field set
(`MessageThreadId` through `stringifyOptional`). -/
def buildStoredPayload (ctx : MsgContext) : StoredPayload where
  Body := ctx.Body
  BodyForAgent := ctx.BodyForAgent
  BodyForCommands := ctx.BodyForCommands
  RawBody := ctx.RawBody
  CommandBody := ctx.CommandBody
  From := ctx.From
  To := ctx.To
  SessionKey := ctx.SessionKey
  AccountId := ctx.AccountId
  MessageSid := ctx.MessageSid
  MessageSidFull := ctx.MessageSidFull
  MessageTurnId := ctx.MessageTurnId
  ReplyToId := ctx.ReplyToId
  ChatType := ctx.ChatType
  Provider := ctx.Provider
  Surface := ctx.Surface
  OriginatingChannel := ctx.OriginatingChannel
  OriginatingTo := ctx.OriginatingTo
  CommandAuthorized := ctx.CommandAuthorized
  CommandSource := ctx.CommandSource
  CommandTargetSessionKey := ctx.CommandTargetSessionKey
  SenderId := ctx.SenderId
  SenderName := ctx.SenderName
  SenderUsername := ctx.SenderUsername
  SenderE164 := ctx.SenderE164
  WasMentioned := ctx.WasMentioned
  IsForum := ctx.IsForum
  Timestamp := ctx.Timestamp
  MessageThreadId := stringifyThreadVal ctx.MessageThreadId
  ConversationLabel := ctx.ConversationLabel
  GroupSubject := ctx.GroupSubject
  GroupChannel := ctx.GroupChannel
  GroupSpace := ctx.GroupSpace
  GroupMembers := ctx.GroupMembers
  HookMessages := ctx.HookMessages

/-- One row of `message_turns`. The payload column is stored in parsed
form; rows written by `acceptTurn` always carry a well-formed canonical
payload (`buildStoredPayload`). -/
structure TurnRow where
  id : String
  channel : String
  account_id : String
  external_id : Option String := none
  dedupe_key : Option String := none
  session_key : String
  payload : StoredPayload
  route_channel : String := ""
  route_to : String := ""
  route_account_id : Option String := none
  route_thread_id : Option String := none
  route_reply_to_id : Option String := none
  accepted_at : Int
  updated_at : Int
  status : TurnStatus
  attempt_count : Nat := 0
  next_attempt_at : Int
  completed_at : Option Int := none
  terminal_reason : Option String := none
deriving DecidableEq

/-! ## Hydration (`hydrateTurnContext`) -/

/-- `readThreadId`: numeric-looking strings become numbers when the
parse is canonical (`String(parsed) === trimmed`), others stay strings. -/
def readThreadId (stored : Option String) : Option ThreadVal :=
  match stored with
  | none => none
  | some s =>
    let t := jsTrim s
    if t = "" then none
    else
      match parseIntChars t.data with
      | some n => if toString n = t then some (.num n) else some (.str t)
      | none => some (.str t)

/-- `readStringArray`: keep trimmed non-empty entries; an empty result is
treated as absent. -/
def readStringArray (stored : Option (List String)) : Option (List String) :=
  match stored with
  | none => none
  | some l =>
    let resolved := (l.map jsTrim).filter (fun e => e ≠ "")
    if resolved.isEmpty then none else some resolved

/-- The hydration local `originatingTo`:
`readString(raw, "OriginatingTo", ...) ?? to`. -/
def hydOriginatingTo (p : StoredPayload) : Option String :=
  nullish (normStr p.OriginatingTo) (normStr p.To)

/-- The hydration local `originatingChannel`: the stored payload value,
falling back to the row's `channel` column when that is non-blank. -/
def hydOriginatingChannel (turn : TurnRow) : Option String :=
  nullish (normStr turn.payload.OriginatingChannel)
    (if jsTrim turn.channel ≠ "" then some turn.channel else none)

/-- `hydrateTurnContext(turn)`: reconstruct the canonical context from a
stored row; null when neither an originating destination nor an
originating channel can be reconstructed. In rows written by
`buildStoredPayload` only the canonical key spellings are present, so the
legacy lower-camelCase lookups of the source always miss. -/
def hydrateTurnContext (turn : TurnRow) : Option MsgContext :=
  let p := turn.payload
  let fallbackAccountId := if jsTrim turn.account_id ≠ "" then some turn.account_id else none
  let fallbackMessageSid :=
    match turn.external_id with
    | some e => if jsTrim e ≠ "" then some e else none
    | none => none
  match hydOriginatingTo p, hydOriginatingChannel turn with
  | some oTo, some oCh =>
    some
      { Body := normStr p.Body
        BodyForAgent := normStr p.BodyForAgent
        BodyForCommands := normStr p.BodyForCommands
        RawBody := normStr p.RawBody
        CommandBody := normStr p.CommandBody
        From := normStr p.From
        To := some ((normStr p.To).getD oTo)
        SessionKey := some ((normStr p.SessionKey).getD turn.session_key)
        AccountId := nullish (normStr p.AccountId) fallbackAccountId
        MessageSid := nullish (normStr p.MessageSid) fallbackMessageSid
        MessageSidFull := normStr p.MessageSidFull
        MessageTurnId := some turn.id
        ReplyToId := normStr p.ReplyToId
        ChatType := normStr p.ChatType
        Provider := normStr p.Provider
        Surface := normStr p.Surface
        OriginatingChannel := some oCh
        OriginatingTo := some oTo
        CommandAuthorized := p.CommandAuthorized
        CommandSource := normStr p.CommandSource
        CommandTargetSessionKey := normStr p.CommandTargetSessionKey
        SenderId := normStr p.SenderId
        SenderName := normStr p.SenderName
        SenderUsername := normStr p.SenderUsername
        SenderE164 := normStr p.SenderE164
        WasMentioned := p.WasMentioned
        IsForum := p.IsForum
        Timestamp := p.Timestamp
        MessageThreadId := readThreadId p.MessageThreadId
        ConversationLabel := normStr p.ConversationLabel
        GroupSubject := normStr p.GroupSubject
        GroupChannel := normStr p.GroupChannel
        GroupSpace := normStr p.GroupSpace
        GroupMembers := normStr p.GroupMembers
        HookMessages := readStringArray p.HookMessages }
  | _, _ => none

/-! ## Turn admission (`acceptTurn`) -/

/-- Result of `acceptTurn`. -/
structure AcceptTurnResult where
  accepted : Bool
  id : String
deriving DecidableEq

/-- Hard-coded flag in the source: persistent dedupe is disabled while
per-channel message identity semantics are being normalised. -/
def disablePersistentDedupe : Bool := true

/-- `String(ctx.OriginatingChannel ?? ctx.Surface ?? ctx.Provider ?? "").toLowerCase()`. -/
def acceptChannel (ctx : MsgContext) : String :=
  jsToLower ((nullish ctx.OriginatingChannel (nullish ctx.Surface ctx.Provider)).getD "")

/-- `stringifyOptional` on an optional string value. -/
def stringifyOptionalStr (v : Option String) : Option String := normStr v

/-- The `message_turns` row inserted by `acceptTurn`. -/
def mkAcceptedTurnRow (ctx : MsgContext) (id : String) (now : Int)
    (externalId dedupeKey : Option String) : TurnRow where
  id := id
  channel := acceptChannel ctx
  account_id := (ctx.AccountId.map jsTrim).getD ""
  external_id := externalId
  dedupe_key := dedupeKey
  session_key := (ctx.SessionKey.map jsTrim).getD ""
  payload := buildStoredPayload ctx
  route_channel := acceptChannel ctx
  route_to := (nullish (normStr ctx.OriginatingTo) (normStr ctx.To)).getD ""
  route_account_id := normStr ctx.AccountId
  route_thread_id := stringifyThreadVal ctx.MessageThreadId
  route_reply_to_id := stringifyOptionalStr ctx.ReplyToId
  accepted_at := now
  updated_at := now
  status := .running
  attempt_count := 0
  next_attempt_at := now

/-- `acceptTurn(ctx)`: with `disablePersistentDedupe = true` the dedupe
key and external id are always null, so every call takes the
unconditional-insert branch and returns `accepted = true`. The
insert-or-ignore branch (unique index on `dedupe_key`) is embedded for
completeness. -/
def acceptTurn (ctx : MsgContext) (id : String) (now : Int)
    (tbl : List TurnRow) : AcceptTurnResult × List TurnRow :=
  let dedupeKey := if disablePersistentDedupe then none else buildInboundDedupeKey ctx
  let externalId := if disablePersistentDedupe then none else normStr ctx.MessageSid
  match dedupeKey, externalId with
  | some k, some e =>
    if tbl.any (fun r => r.dedupe_key = some k) then ({ accepted := false, id := id }, tbl)
    else ({ accepted := true, id := id }, tbl ++ [mkAcceptedTurnRow ctx id now (some e) (some k)])
  | _, _ =>
    ({ accepted := true, id := id }, tbl ++ [mkAcceptedTurnRow ctx id now none none])

/-! ## Turn state transitions (src/infra/message-lifecycle turns) -/

/-- `MAX_TURN_RECOVERY_ATTEMPTS = 3`. -/
def MAX_TURN_RECOVERY_ATTEMPTS : Nat := 3

/-- Default recovery backoff (`TURN_RECOVERY_BACKOFF_MS = 15_000`). -/
def TURN_RECOVERY_BACKOFF_MS : Int := 15000

/-- `markTurnRunning`: `UPDATE ... SET status='running' WHERE id=? AND
status IN ('accepted','failed_retryable')`. -/
def markTurnRunning (id : String) (now : Int) (tbl : List TurnRow) : List TurnRow :=
  tbl.map fun r =>
    if r.id = id ∧ (r.status = .accepted ∨ r.status = .failed_retryable) then
      { r with status := .running, updated_at := now }
    else r

/-- `markTurnDeliveryPending`: guarded on
`status IN ('accepted','running','failed_retryable')`. -/
def markTurnDeliveryPending (id : String) (now : Int) (tbl : List TurnRow) : List TurnRow :=
  tbl.map fun r =>
    if r.id = id ∧ (r.status = .accepted ∨ r.status = .running ∨ r.status = .failed_retryable) then
      { r with status := .delivery_pending, updated_at := now }
    else r

/-- `mapTerminalStatus`: the external `failed` label maps to
`failed_terminal`. -/
inductive FinalizeStatus where
  | delivered
  | aborted
  | failed
deriving DecidableEq

def mapTerminalStatus : FinalizeStatus → TurnStatus
  | .failed => .failed_terminal
  | .delivered => .delivered
  | .aborted => .aborted

/-- `finalizeTurn`: terminal write guarded on
`status IN ('accepted','running','delivery_pending','failed_retryable')`. -/
def finalizeTurn (id : String) (status : FinalizeStatus) (now : Int)
    (tbl : List TurnRow) : List TurnRow :=
  tbl.map fun r =>
    if r.id = id ∧ nonTerminalTurn r.status then
      { r with status := mapTerminalStatus status, updated_at := now, completed_at := some now }
    else r

/-- Result of `recordTurnRecoveryFailure`. -/
structure RecoveryFailureResult where
  attempts : Nat
  markedFailed : Bool
deriving DecidableEq

/-- `recordTurnRecoveryFailure`: inside one transaction, read the row; a
missing or terminal row is left untouched; otherwise bump the attempt
count and either terminalize (at the attempt cap) or re-schedule with
backoff. -/
def recordTurnRecoveryFailure (id : String) (error : String) (now backoffMs : Int)
    (tbl : List TurnRow) : RecoveryFailureResult × List TurnRow :=
  match tbl.find? (fun r => r.id == id) with
  | none => ({ attempts := 0, markedFailed := false }, tbl)
  | some row =>
    if !(nonTerminalTurn row.status) then ({ attempts := 0, markedFailed := false }, tbl)
    else
      let attempts := row.attempt_count + 1
      if attempts ≥ MAX_TURN_RECOVERY_ATTEMPTS then
        ({ attempts := attempts, markedFailed := true },
          tbl.map fun r =>
            if r.id = id then
              { r with status := .failed_terminal, attempt_count := attempts,
                       updated_at := now, completed_at := some now,
                       terminal_reason := some error }
            else r)
      else
        ({ attempts := attempts, markedFailed := false },
          tbl.map fun r =>
            if r.id = id then
              { r with status := .failed_retryable, attempt_count := attempts,
                       updated_at := now, next_attempt_at := now + backoffMs,
                       terminal_reason := some error }
            else r)

/-- `failStaleTurns`: blanket sweep of non-terminal rows older than the
cutoff. -/
def failStaleTurns (maxAgeMs : Int) (now : Int) (tbl : List TurnRow) : List TurnRow :=
  tbl.map fun r =>
    if nonTerminalTurn r.status ∧ r.accepted_at < now - maxAgeMs then
      { r with status := .failed_terminal, updated_at := now, completed_at := some now,
               terminal_reason := some "stale turn exceeded recovery age" }
    else r

/-- `abortTurnsForSession`: session-scoped abort of non-terminal rows
(no-op on a blank session key). -/
def abortTurnsForSession (sessionKey : String) (now : Int) (tbl : List TurnRow) : List TurnRow :=
  if jsTrim sessionKey = "" then tbl
  else
    tbl.map fun r =>
      if r.session_key = jsTrim sessionKey ∧ nonTerminalTurn r.status then
        { r with status := .aborted, updated_at := now, completed_at := some now }
      else r

/-! ## Outbox rows (message_outbox, src/infra/outbound/delivery-queue.ts) -/

/-- Outbox delivery states. -/
inductive OutboxStatus where
  | queued
  | failed_retryable
  | delivered
  | failed_terminal
  | expired
deriving DecidableEq

/-- Active (non-terminal) outbox states. -/
def activeOutbox (s : OutboxStatus) : Bool :=
  s == .queued || s == .failed_retryable

/-- Terminal outbox states: `delivered`, `failed_terminal`, `expired`. -/
def isTerminalOutbox (s : OutboxStatus) : Bool := !(activeOutbox s)

/-- Mirror payload (`DeliveryMirrorPayload`). -/
structure DeliveryMirrorPayload where
  sessionKey : String
  agentId : Option String := none
  text : Option String := none
  mediaUrls : Option (List String) := none
deriving DecidableEq

/-- One emitted reply payload (`ReplyPayload` fields used here). -/
structure ReplyPayload where
  text : Option String := none
  mediaUrls : Option (List String) := none
deriving DecidableEq

/-- Parsed content of the outbox `payload` JSON column
(`QueuedDeliveryPayload`). -/
structure QueuedDeliveryPayload where
  channel : String
  «to» : String
  accountId : Option String := none
  payloads : List ReplyPayload := []
  threadId : Option ThreadVal := none
  replyToId : Option String := none
  bestEffort : Option Bool := none
  gifPlayback : Option Bool := none
  silent : Option Bool := none
  mirror : Option DeliveryMirrorPayload := none
deriving DecidableEq

instance {ε α : Type} [DecidableEq ε] [DecidableEq α] : DecidableEq (Except ε α) := fun a b =>
  match a, b with
  | .ok x, .ok y =>
    if h : x = y then .isTrue (by rw [h]) else .isFalse (by simp [h])
  | .error x, .error y =>
    if h : x = y then .isTrue (by rw [h]) else .isFalse (by simp [h])
  | .ok _, .error _ => .isFalse (by simp)
  | .error _, .ok _ => .isFalse (by simp)

/-- One row of `message_outbox`. The payload column holds either the
parsed JSON object or, in the `.error` case, the `JSON.parse` error
message of an unparseable payload string. -/
structure OutboxRow where
  id : String
  turn_id : Option String := none
  channel : String
  account_id : String := ""
  target : String := ""
  payload : Except String QueuedDeliveryPayload
  queued_at : Int
  status : OutboxStatus
  attempt_count : Nat := 0
  next_attempt_at : Int
  last_attempt_at : Option Int := none
  last_error : Option String := none
  error_class : Option String := none
  delivered_at : Option Int := none
  terminal_reason : Option String := none
  completed_at : Option Int := none
  idempotency_key : Option String := none
deriving DecidableEq

/-- `MAX_RETRIES = 5`. -/
def MAX_RETRIES : Nat := 5

/-- `BACKOFF_MS` table: 5 s, 25 s, 2 min, 10 min (1-based by retry). -/
def BACKOFF_MS : List Int := [5000, 25000, 120000, 600000]

/-- `computeBackoffMs(retryCount)`: 0 for retry 0, else the table entry
clamped to the last one. -/
def computeBackoffMs (retryCount : Nat) : Int :=
  if retryCount = 0 then 0
  else BACKOFF_MS.getD (min (retryCount - 1) (BACKOFF_MS.length - 1)) 0

/-- `PERMANENT_ERROR_PATTERNS` (each source regex is a literal matched
case-insensitively). -/
def PERMANENT_ERROR_PATTERNS : List String :=
  ["no conversation reference found",
   "chat not found",
   "user not found",
   "bot was blocked by the user",
   "forbidden: bot was kicked",
   "chat_id is empty",
   "recipient is not a valid",
   "outbound not configured for channel"]

/-- `isPermanentDeliveryError(error)`: any pattern occurs in the error,
ignoring ASCII case. -/
def isPermanentDeliveryError (error : String) : Bool :=
  PERMANENT_ERROR_PATTERNS.any (fun p => containsSubstr (jsToLower error) p)

/-! ## Outbox operations -/

/-- The combined lifecycle store: both tables of `message-lifecycle.db`. -/
structure LifecycleState where
  turns : List TurnRow
  outbox : List OutboxRow
deriving DecidableEq

/-- Aggregate counters of `getOutboxStatusForTurn` (`queued` counts the
active states, `failed` the failed/expired ones). -/
structure OutboxTurnStatus where
  queued : Nat
  delivered : Nat
  failed : Nat
deriving DecidableEq

def getOutboxStatusForTurn (turnId : String) (outbox : List OutboxRow) : OutboxTurnStatus :=
  let rows := outbox.filter (fun r => r.turn_id = some turnId)
  { queued := rows.countP (fun r => r.status = .queued ∨ r.status = .failed_retryable),
    delivered := rows.countP (fun r => r.status = .delivered),
    failed := rows.countP (fun r => r.status = .failed_terminal ∨ r.status = .expired) }

/-- `maybeFinalizeTurnDelivered`: finalize the owning turn as delivered
when its outbox has no active rows, at least one delivered row and no
failed/expired row. -/
def maybeFinalizeTurnDelivered (turnId : String) (now : Int) (s : LifecycleState) : List TurnRow :=
  let rows := s.outbox.filter (fun r => r.turn_id = some turnId)
  let active := rows.countP (fun r => r.status = .queued ∨ r.status = .failed_retryable)
  let delivered := rows.countP (fun r => r.status = .delivered)
  let failed := rows.countP (fun r => r.status = .failed_terminal ∨ r.status = .expired)
  if active = 0 ∧ delivered > 0 ∧ failed = 0 then finalizeTurn turnId .delivered now s.turns
  else s.turns

/-- `maybeFinalizeTurnFailed`: finalize the owning turn as failed when no
active rows remain and at least one row failed or expired. -/
def maybeFinalizeTurnFailed (turnId : String) (now : Int) (s : LifecycleState) : List TurnRow :=
  let rows := s.outbox.filter (fun r => r.turn_id = some turnId)
  let active := rows.countP (fun r => r.status = .queued ∨ r.status = .failed_retryable)
  let failed := rows.countP (fun r => r.status = .failed_terminal ∨ r.status = .expired)
  if active = 0 ∧ failed > 0 then finalizeTurn turnId .failed now s.turns
  else s.turns

/-- Truthiness of the nullable `turn_id` column (`if (row?.turn_id)`). -/
def truthyTurnId : Option String → Option String
  | some t => if t = "" then none else some t
  | none => none

/-- `ackDelivery(id)`: read the row's `turn_id`, unconditionally set the
row to `delivered` (the UPDATE is keyed on `id` only), then run the
turn-finalization check against the updated outbox. -/
def ackDelivery (id : String) (now : Int) (s : LifecycleState) : LifecycleState :=
  let found := s.outbox.find? (fun r => r.id == id)
  let outboxNext := s.outbox.map fun r =>
    if r.id = id then
      { r with status := .delivered, delivered_at := some now, completed_at := some now }
    else r
  let turnsNext :=
    match found.bind (fun r => truthyTurnId r.turn_id) with
    | some t => maybeFinalizeTurnDelivered t now { turns := s.turns, outbox := outboxNext }
    | none => s.turns
  { turns := turnsNext, outbox := outboxNext }

/-- `failDelivery(id, error)`: missing rows are ignored; a permanent
error terminalizes immediately without touching the attempt count; a
transient error bumps the attempt count and either terminalizes at the
retry cap or re-schedules with backoff. Each UPDATE is keyed on `id`
only. -/
def failDelivery (id : String) (error : String) (now : Int) (s : LifecycleState) : LifecycleState :=
  match s.outbox.find? (fun r => r.id == id) with
  | none => s
  | some row =>
    if isPermanentDeliveryError error then
      let outboxNext := s.outbox.map fun r =>
        if r.id = id then
          { r with status := .failed_terminal, error_class := some "permanent",
                   last_error := some error, completed_at := some now,
                   terminal_reason := some error }
        else r
      let turnsNext :=
        match truthyTurnId row.turn_id with
        | some t => maybeFinalizeTurnFailed t now { turns := s.turns, outbox := outboxNext }
        | none => s.turns
      { turns := turnsNext, outbox := outboxNext }
    else
      let nextCount := row.attempt_count + 1
      if nextCount ≥ MAX_RETRIES then
        let outboxNext := s.outbox.map fun r =>
          if r.id = id then
            { r with status := .failed_terminal, error_class := some "terminal",
                     attempt_count := nextCount, last_error := some error,
                     last_attempt_at := some now, completed_at := some now,
                     terminal_reason := some error }
          else r
        let turnsNext :=
          match truthyTurnId row.turn_id with
          | some t => maybeFinalizeTurnFailed t now { turns := s.turns, outbox := outboxNext }
          | none => s.turns
        { turns := turnsNext, outbox := outboxNext }
      else
        let outboxNext := s.outbox.map fun r =>
          if r.id = id then
            { r with status := .failed_retryable, attempt_count := nextCount,
                     last_error := some error, last_attempt_at := some now,
                     next_attempt_at := now + computeBackoffMs nextCount }
          else r
        { turns := s.turns, outbox := outboxNext }

/-- `moveToFailed(id)`: unconditional terminal write keyed on `id`, then
the failed-turn finalization check. -/
def moveToFailed (id : String) (now : Int) (s : LifecycleState) : LifecycleState :=
  let found := s.outbox.find? (fun r => r.id == id)
  let outboxNext := s.outbox.map fun r =>
    if r.id = id then
      { r with status := .failed_terminal, error_class := some "terminal",
               terminal_reason := some (r.terminal_reason.getD "moved to failed"),
               completed_at := some now }
    else r
  let turnsNext :=
    match found.bind (fun r => truthyTurnId r.turn_id) with
    | some t => maybeFinalizeTurnFailed t now { turns := s.turns, outbox := outboxNext }
    | none => s.turns
  { turns := turnsNext, outbox := outboxNext }

/-- The TTL-expiry UPDATE run before a recovery pass (`expireAction ==
"fail"`): guarded on the active states. -/
def expireStaleOutbox (staleCutoff now : Int) (outbox : List OutboxRow) : List OutboxRow :=
  outbox.map fun r =>
    if (r.status = .queued ∨ r.status = .failed_retryable) ∧ r.queued_at < staleCutoff then
      { r with status := .expired, error_class := some "terminal",
               last_error := some "expired: queued_at too old",
               terminal_reason := some "expired", completed_at := some now }
    else r

/-! ## Loading pending deliveries -/

/-- In-memory queue entry (`QueuedDelivery`): the parsed payload plus the
row's scheduling metadata. -/
structure QueuedDelivery where
  payload : QueuedDeliveryPayload
  id : String
  enqueuedAt : Int
  retryCount : Nat
  lastAttemptAt : Option Int := none
  lastError : Option String := none
  turnId : Option String := none
deriving DecidableEq

/-- Entry assembled from one selected row with a parseable payload. -/
def mkQueuedDelivery (r : OutboxRow) (p : QueuedDeliveryPayload) : QueuedDelivery where
  payload := p
  id := r.id
  enqueuedAt := r.queued_at
  retryCount := r.attempt_count
  lastAttemptAt := r.last_attempt_at
  lastError := r.last_error.bind (fun e => if e = "" then none else some e)
  turnId := truthyTurnId r.turn_id

/-- Terminal write applied to a selected row whose payload failed
`JSON.parse` (`invalid payload: <message>`). -/
def invalidPayloadUpdate (errMsg : String) (now : Int) (r : OutboxRow) : OutboxRow :=
  { r with status := .failed_terminal, error_class := some "terminal",
           last_error := some ("invalid payload: " ++ errMsg),
           terminal_reason := some ("invalid payload: " ++ errMsg),
           completed_at := some now }

/-- The SQL `ORDER BY queued_at ASC`. -/
def sortByQueuedAt (tbl : List OutboxRow) : List OutboxRow :=
  tbl.insertionSort (fun a b => a.queued_at ≤ b.queued_at)

/-- Status-and-due-time part of the `loadPendingDeliveries` WHERE clause. -/
def pendingSelectBase (now : Int) (r : OutboxRow) : Bool :=
  decide ((r.status = .queued ∨ r.status = .failed_retryable) ∧ r.next_attempt_at ≤ now)

/-- Startup-cutoff disjunct of the WHERE clause:
`queued_at < ? OR last_attempt_at IS NOT NULL OR attempt_count > 0`. -/
def pendingCutoffOk (s : Int) (r : OutboxRow) : Bool :=
  decide (r.queued_at < s ∨ r.last_attempt_at ≠ none ∨ r.attempt_count > 0)

/-- Row-selection predicate of `loadPendingDeliveries` (active status,
due now, and — when a startup cutoff is supplied — inserted before the
cutoff or already attempted). -/
def pendingSelect (now : Int) (startupCutoff : Option Int) (r : OutboxRow) : Bool :=
  match startupCutoff with
  | some s => pendingSelectBase now r && pendingCutoffOk s r
  | none => pendingSelectBase now r

/-- The per-row loop body of `loadPendingDeliveries`: parseable rows
become entries, unparseable ones are terminalized in place. -/
def loadPendingStep (now : Int) (acc : List QueuedDelivery × List OutboxRow) (r : OutboxRow) :
    List QueuedDelivery × List OutboxRow :=
  match r.payload with
  | .ok p => (acc.1 ++ [mkQueuedDelivery r p], acc.2)
  | .error msg =>
    (acc.1, acc.2.map fun q => if q.id = r.id then invalidPayloadUpdate msg now q else q)

/-- `loadPendingDeliveries(stateDir, startupCutoff)`: select the eligible
rows in `queued_at` order, then build entries, terminalizing rows whose
payload does not parse. Returns the entries and the updated table. -/
def loadPendingDeliveries (tbl : List OutboxRow) (now : Int) (startupCutoff : Option Int) :
    List QueuedDelivery × List OutboxRow :=
  let rows := (sortByQueuedAt tbl).filter (pendingSelect now startupCutoff)
  rows.foldl (loadPendingStep now) ([], tbl)

/-! ## Recovery eligibility -/

/-- Result of `isEntryEligibleForRecoveryRetry`. -/
inductive EligibilityResult where
  | eligible
  | notEligible (remainingBackoffMs : Int)
deriving DecidableEq

/-- `isEntryEligibleForRecoveryRetry(entry, now)`: never-attempted
entries replay immediately; otherwise the backoff for the next retry is
measured from `last_attempt_at` when it is a positive timestamp, else
from `enqueuedAt`. -/
def isEntryEligibleForRecoveryRetry (entry : QueuedDelivery) (now : Int) : EligibilityResult :=
  let backoff := computeBackoffMs (entry.retryCount + 1)
  if backoff ≤ 0 then .eligible
  else if entry.retryCount = 0 ∧ entry.lastAttemptAt = none then .eligible
  else
    let hasAttemptTimestamp : Bool :=
      match entry.lastAttemptAt with
      | some t => decide (t > 0)
      | none => false
    let baseAttemptAt :=
      if hasAttemptTimestamp then entry.lastAttemptAt.getD entry.enqueuedAt else entry.enqueuedAt
    let nextEligibleAt := baseAttemptAt + backoff
    if now ≥ nextEligibleAt then .eligible
    else .notEligible (nextEligibleAt - now)

/-! ## Dispatch driver (src/auto-reply/dispatch.ts, lifecycle variant) -/

/-- Outcome fields of a completed reply generation that the driver
consults (`attemptedFinal`, `queuedFinal` and the dispatcher's
successful-send counter). -/
structure DispatchGenResult where
  attemptedFinal : Nat
  queuedFinal : Bool
  successfulSends : Nat
deriving DecidableEq

/-- Observable dispatcher drain calls made by the driver. -/
inductive DispatchEvent where
  | markComplete
  | waitForIdle
deriving DecidableEq

/-- `dispatchInboundMessageInternal` for a tracked inbound turn (not a
heartbeat, not a resumed turn). `gen` is the outcome of the reply
generator run through the dispatcher: `.error e` models a thrown
exception. The driver admits the turn, marks it running, runs the
generator inside `withReplyDispatcher` (whose `finally` drains the
dispatcher on every exit path) and, only on a normal return, finalizes
the turn from the outbox aggregate; a thrown error is re-raised without
touching the turn row. -/
def dispatchInboundTracked (ctx : MsgContext) (newId : String) (now : Int)
    (gen : Except String DispatchGenResult) (s : LifecycleState) :
    Except String DispatchGenResult × LifecycleState × List DispatchEvent :=
  let (res, turns1) := acceptTurn ctx newId now s.turns
  if !res.accepted then
    (.ok { attemptedFinal := 0, queuedFinal := false, successfulSends := 0 },
      { turns := turns1, outbox := s.outbox }, [.markComplete, .waitForIdle])
  else
    let turnId := res.id
    let turns2 := markTurnRunning turnId now turns1
    match gen with
    | .error e =>
      (.error e, { turns := turns2, outbox := s.outbox }, [.markComplete, .waitForIdle])
    | .ok r =>
      let st := getOutboxStatusForTurn turnId s.outbox
      let turns3 :=
        if st.queued > 0 then markTurnDeliveryPending turnId now turns2
        else if st.delivered > 0 ∧ st.failed = 0 then finalizeTurn turnId .delivered now turns2
        else if st.failed > 0 ∧ st.queued = 0 then finalizeTurn turnId .failed now turns2
        else if r.attemptedFinal > 0 ∧ !r.queuedFinal then
          (recordTurnRecoveryFailure turnId "final delivery did not queue successfully"
            now TURN_RECOVERY_BACKOFF_MS turns2).2
        else if r.attemptedFinal > 0 ∧ r.queuedFinal then
          if r.successfulSends > 0 then finalizeTurn turnId .delivered now turns2
          else
            (recordTurnRecoveryFailure turnId "final send queued but no successful sends"
              now TURN_RECOVERY_BACKOFF_MS turns2).2
        else finalizeTurn turnId .delivered now turns2
      (.ok r, { turns := turns3, outbox := s.outbox }, [.markComplete, .waitForIdle])

/-! ## Spec-side characterisations

These definitions restate, in the claims' vocabulary, what the
operations above compute; the claim theorems connect the two. -/

/-- The attempt timestamp the eligibility check actually measures the
backoff from: `last_attempt_at` when present as a positive number, the
enqueue time otherwise. -/
def recoveryBase (entry : QueuedDelivery) : Int :=
  match entry.lastAttemptAt with
  | some t => if t > 0 then t else entry.enqueuedAt
  | none => entry.enqueuedAt

/-- The claim's phrasing of the startup-cutoff selection: active status,
due now and not (inserted at/after the cutoff, never attempted). -/
def pendingClaimPred (now s : Int) (r : OutboxRow) : Bool :=
  decide ((r.status = .queued ∨ r.status = .failed_retryable) ∧ r.next_attempt_at ≤ now ∧
    ¬(r.queued_at ≥ s ∧ r.attempt_count = 0 ∧ r.last_attempt_at = none))

/-- The entry a selected row contributes: its parsed payload, or nothing
when the payload does not parse. -/
def pendingEntryOf (r : OutboxRow) : Option QueuedDelivery :=
  match r.payload with
  | .ok p => some (mkQueuedDelivery r p)
  | .error _ => none

/-- Resolved originating destination of a context, as reconstructed by
hydration from a row written by `acceptTurn`. -/
def resolvedOriginTo (ctx : MsgContext) : Option String :=
  nullish (normStr ctx.OriginatingTo) (normStr ctx.To)

/-- Resolved originating channel of a context, as reconstructed by
hydration from a row written by `acceptTurn` (payload value, else the
lower-cased channel column when non-blank). -/
def resolvedOriginChannel (ctx : MsgContext) : Option String :=
  nullish (normStr ctx.OriginatingChannel)
    (if jsTrim (acceptChannel ctx) ≠ "" then some (acceptChannel ctx) else none)

/-- The normalisation `acceptTurn`-then-hydration applies to a context:
strings are trimmed with blank collapsing to absent, `To` falls back to
the originating destination, `SessionKey` and `AccountId` fall back to
their row columns, `MessageTurnId` becomes the row id, the thread id
round-trips through its stored string form, and hook messages keep their
trimmed non-empty entries. -/
def normCtx (rowId : String) (ctx : MsgContext) : MsgContext where
  Body := normStr ctx.Body
  BodyForAgent := normStr ctx.BodyForAgent
  BodyForCommands := normStr ctx.BodyForCommands
  RawBody := normStr ctx.RawBody
  CommandBody := normStr ctx.CommandBody
  From := normStr ctx.From
  To := nullish (normStr ctx.To) (resolvedOriginTo ctx)
  SessionKey := some ((normStr ctx.SessionKey).getD ((ctx.SessionKey.map jsTrim).getD ""))
  AccountId := normStr ctx.AccountId
  MessageSid := normStr ctx.MessageSid
  MessageSidFull := normStr ctx.MessageSidFull
  MessageTurnId := some rowId
  ReplyToId := normStr ctx.ReplyToId
  ChatType := normStr ctx.ChatType
  Provider := normStr ctx.Provider
  Surface := normStr ctx.Surface
  OriginatingChannel := resolvedOriginChannel ctx
  OriginatingTo := resolvedOriginTo ctx
  CommandAuthorized := ctx.CommandAuthorized
  CommandSource := normStr ctx.CommandSource
  CommandTargetSessionKey := normStr ctx.CommandTargetSessionKey
  SenderId := normStr ctx.SenderId
  SenderName := normStr ctx.SenderName
  SenderUsername := normStr ctx.SenderUsername
  SenderE164 := normStr ctx.SenderE164
  WasMentioned := ctx.WasMentioned
  IsForum := ctx.IsForum
  Timestamp := ctx.Timestamp
  MessageThreadId := readThreadId (stringifyThreadVal ctx.MessageThreadId)
  ConversationLabel := normStr ctx.ConversationLabel
  GroupSubject := normStr ctx.GroupSubject
  GroupChannel := normStr ctx.GroupChannel
  GroupSpace := normStr ctx.GroupSpace
  GroupMembers := normStr ctx.GroupMembers
  HookMessages := readStringArray ctx.HookMessages

/-- The context literal produced by the success branch of
`hydrateTurnContext` on a row inserted by `acceptTurn` (payload fields
projected through `buildStoredPayload`, `external_id` null). -/
def hydratedCtx (rowId : String) (ctx : MsgContext) (oTo oCh : String) : MsgContext where
  Body := normStr ctx.Body
  BodyForAgent := normStr ctx.BodyForAgent
  BodyForCommands := normStr ctx.BodyForCommands
  RawBody := normStr ctx.RawBody
  CommandBody := normStr ctx.CommandBody
  From := normStr ctx.From
  To := some ((normStr ctx.To).getD oTo)
  SessionKey := some ((normStr ctx.SessionKey).getD ((ctx.SessionKey.map jsTrim).getD ""))
  AccountId := nullish (normStr ctx.AccountId)
    (if jsTrim ((ctx.AccountId.map jsTrim).getD "") ≠ "" then
      some ((ctx.AccountId.map jsTrim).getD "") else none)
  MessageSid := nullish (normStr ctx.MessageSid) none
  MessageSidFull := normStr ctx.MessageSidFull
  MessageTurnId := some rowId
  ReplyToId := normStr ctx.ReplyToId
  ChatType := normStr ctx.ChatType
  Provider := normStr ctx.Provider
  Surface := normStr ctx.Surface
  OriginatingChannel := some oCh
  OriginatingTo := some oTo
  CommandAuthorized := ctx.CommandAuthorized
  CommandSource := normStr ctx.CommandSource
  CommandTargetSessionKey := normStr ctx.CommandTargetSessionKey
  SenderId := normStr ctx.SenderId
  SenderName := normStr ctx.SenderName
  SenderUsername := normStr ctx.SenderUsername
  SenderE164 := normStr ctx.SenderE164
  WasMentioned := ctx.WasMentioned
  IsForum := ctx.IsForum
  Timestamp := ctx.Timestamp
  MessageThreadId := readThreadId (stringifyThreadVal ctx.MessageThreadId)
  ConversationLabel := normStr ctx.ConversationLabel
  GroupSubject := normStr ctx.GroupSubject
  GroupChannel := normStr ctx.GroupChannel
  GroupSpace := normStr ctx.GroupSpace
  GroupMembers := normStr ctx.GroupMembers
  HookMessages := readStringArray ctx.HookMessages

/-! ## Helper lemmas -/

/-- `find?` commutes with a map that does not change the predicate. -/
theorem find?_map_eq {α : Type} (f : α → α) (p : α → Bool) (h : ∀ a, p (f a) = p a) :
    ∀ l : List α, (l.map f).find? p = (l.find? p).map f := by
  intro l
  induction l with
  | nil => rfl
  | cons a t ih =>
    simp only [List.map_cons, List.find?_cons, h a]
    cases hp : p a <;> simp [hp, ih]

/-- Specialisation: a row-level rewrite keyed on ids leaves the first
match of an id-search unchanged when it fixes that row. -/
theorem find?_id_map_turn (tbl : List TurnRow) (rid : String) (r : TurnRow)
    (hfind : tbl.find? (fun t => t.id == rid) = some r)
    (f : TurnRow → TurnRow) (hpres : ∀ t, (f t).id = t.id) (hfix : f r = r) :
    (tbl.map f).find? (fun t => t.id == rid) = some r := by
  rw [find?_map_eq f _ (fun a => by rw [hpres a]), hfind, Option.map_some', hfix]

/-- Image form: the first match of an id-search in the rewritten table
is the rewrite of the first match in the original table. -/
theorem find?_id_map_turn_img (tbl : List TurnRow) (rid : String) (r : TurnRow)
    (hfind : tbl.find? (fun t => t.id == rid) = some r)
    (f : TurnRow → TurnRow) (hpres : ∀ t, (f t).id = t.id) :
    (tbl.map f).find? (fun t => t.id == rid) = some (f r) := by
  rw [find?_map_eq f _ (fun a => by rw [hpres a]), hfind, Option.map_some']

/-- The same specialisation for outbox rows. -/
theorem find?_id_map_outbox (tbl : List OutboxRow) (rid : String) (r : OutboxRow)
    (hfind : tbl.find? (fun t => t.id == rid) = some r)
    (f : OutboxRow → OutboxRow) (hpres : ∀ t, (f t).id = t.id) :
    (tbl.map f).find? (fun t => t.id == rid) = some (f r) := by
  rw [find?_map_eq f _ (fun a => by rw [hpres a]), hfind, Option.map_some']

/-- Terminal turn states enumerated. -/
theorem terminalTurn_cases (s : TurnStatus) (h : isTerminalTurn s = true) :
    s = .delivered ∨ s = .aborted ∨ s = .failed_terminal := by
  cases s <;> simp_all [isTerminalTurn, nonTerminalTurn]

/-- Terminal outbox states enumerated. -/
theorem terminalOutbox_cases (s : OutboxStatus) (h : isTerminalOutbox s = true) :
    s = .delivered ∨ s = .failed_terminal ∨ s = .expired := by
  cases s <;> simp_all [isTerminalOutbox, activeOutbox]

/-! ## Claim C1 -/

/-- Claim C1 evaluated at the spec's own scenario: the context
(telegram / acct-1 / msg-1 / peer chat-1) yields a non-null inbound
dedupe key, yet both of two successive `acceptTurn` calls return
`accepted = true` and two rows are inserted — the persistent-dedupe
branch is dead behind the hard-coded `disablePersistentDedupe = true`,
so the second call is not rejected as a duplicate. -/
theorem acceptTurn_duplicate_both_accepted :
    let ctx : MsgContext :=
      { OriginatingChannel := some "telegram", AccountId := some "acct-1",
        MessageSid := some "msg-1", OriginatingTo := some "chat-1", To := some "chat-1",
        From := some "user-1", SessionKey := some "sk-1", Body := some "hello" }
    buildInboundDedupeKey ctx = some "telegram|acct-1|sk-1|chat-1|msg-1" ∧
    (acceptTurn ctx "t1" 0 []).1.accepted = true ∧
    (acceptTurn ctx "t2" 1 (acceptTurn ctx "t1" 0 []).2).1.accepted = true ∧
    ((acceptTurn ctx "t2" 1 (acceptTurn ctx "t1" 0 []).2).2.map (fun r => r.id)) =
      ["t1", "t2"] := by decide

/-! ## Claim C2 -/

/-- Claim C2 counterexample: an outbox row in the terminal state
`expired` is flipped to `delivered` by a subsequent `ackDelivery` — the
ack UPDATE is keyed on `id` alone, with no non-terminal status guard. -/
theorem ackDelivery_overwrites_terminal_row :
    let r : OutboxRow :=
      { id := "x1", channel := "telegram",
        payload := .ok { channel := "telegram", «to» := "chat-1" },
        queued_at := 0, status := .expired, next_attempt_at := 0 }
    isTerminalOutbox r.status = true ∧
    ((ackDelivery "x1" 5 { turns := [], outbox := [r] }).outbox.map (fun q => q.status)) =
      [.delivered] := by decide

/-- Claim C2 amended: only the TTL-expiry UPDATE carries the
non-terminal status predicate, so it never changes a terminal row;
`ackDelivery`, `moveToFailed` and `failDelivery` update by row id alone
and overwrite terminal rows with their new status. -/
theorem outbox_terminal_guard_spec (r : OutboxRow) (tbl : List OutboxRow)
    (cutoff now t2 : Int) (hmem : r ∈ tbl) (hterm : isTerminalOutbox r.status = true) :
    r ∈ expireStaleOutbox cutoff now tbl ∧
    ((ackDelivery r.id t2 { turns := [], outbox := [r] }).outbox.map (fun q => q.status)) =
      [.delivered] ∧
    ((moveToFailed r.id t2 { turns := [], outbox := [r] }).outbox.map (fun q => q.status)) =
      [.failed_terminal] ∧
    ((failDelivery r.id "chat not found" t2
        { turns := [], outbox := [r] }).outbox.map (fun q => q.status)) =
      [.failed_terminal] := by
  have hcases := terminalOutbox_cases r.status hterm
  have hperm : isPermanentDeliveryError "chat not found" = true := by decide
  refine ⟨?_, ?_, ?_, ?_⟩
  · refine List.mem_map.mpr ⟨r, hmem, ?_⟩
    rcases hcases with h | h | h <;> simp [h]
  · simp [ackDelivery, maybeFinalizeTurnDelivered, truthyTurnId]
  · simp [moveToFailed, maybeFinalizeTurnFailed, truthyTurnId]
  · simp [failDelivery, hperm, maybeFinalizeTurnFailed, truthyTurnId]

/-- Witness for the C2 amended theorem at a concrete delivered row. -/
theorem outbox_terminal_guard_spec_witness :
    let r : OutboxRow :=
      { id := "w2", channel := "telegram",
        payload := .ok { channel := "telegram", «to» := "chat-1" },
        queued_at := 0, status := .delivered, next_attempt_at := 0 }
    r ∈ expireStaleOutbox 100 200 [r] ∧
    ((ackDelivery r.id 7 { turns := [], outbox := [r] }).outbox.map (fun q => q.status)) =
      [.delivered] ∧
    ((moveToFailed r.id 7 { turns := [], outbox := [r] }).outbox.map (fun q => q.status)) =
      [.failed_terminal] ∧
    ((failDelivery r.id "chat not found" 7
        { turns := [], outbox := [r] }).outbox.map (fun q => q.status)) =
      [.failed_terminal] :=
  outbox_terminal_guard_spec _ _ 100 200 7 (by decide) (by decide)

/-! ## Claim C3 -/

/-- Claim C3: a `message_turns` row in a terminal state (`delivered`,
`aborted` or `failed_terminal`) is left entirely unchanged by every
subsequent turn operation — `markTurnRunning`, `markTurnDeliveryPending`,
`finalizeTurn`, `recordTurnRecoveryFailure`, `failStaleTurns` and
`abortTurnsForSession` — because each terminal write is conditional on
the current state being non-terminal. -/
theorem turn_terminal_states_final
    (tbl : List TurnRow) (rid id2 sk err : String) (fs : FinalizeStatus)
    (now maxAge backoff : Int) (r : TurnRow)
    (hfind : tbl.find? (fun t => t.id == rid) = some r)
    (hterm : isTerminalTurn r.status = true) :
    (markTurnRunning id2 now tbl).find? (fun t => t.id == rid) = some r ∧
    (markTurnDeliveryPending id2 now tbl).find? (fun t => t.id == rid) = some r ∧
    (finalizeTurn id2 fs now tbl).find? (fun t => t.id == rid) = some r ∧
    ((recordTurnRecoveryFailure id2 err now backoff tbl).2).find? (fun t => t.id == rid) =
      some r ∧
    (failStaleTurns maxAge now tbl).find? (fun t => t.id == rid) = some r ∧
    (abortTurnsForSession sk now tbl).find? (fun t => t.id == rid) = some r := by
  have hcases := terminalTurn_cases r.status hterm
  have hrid : r.id = rid := by
    have := List.find?_some hfind
    exact eq_of_beq this
  refine ⟨?_, ?_, ?_, ?_, ?_, ?_⟩
  · refine find?_id_map_turn tbl rid r hfind _ (fun t => by split <;> rfl) ?_
    rcases hcases with h | h | h <;> simp [h]
  · refine find?_id_map_turn tbl rid r hfind _ (fun t => by split <;> rfl) ?_
    rcases hcases with h | h | h <;> simp [h]
  · refine find?_id_map_turn tbl rid r hfind _ (fun t => by split <;> rfl) ?_
    rcases hcases with h | h | h <;> simp [h, finalizeTurn, nonTerminalTurn]
  · unfold recordTurnRecoveryFailure
    by_cases hid : id2 = rid
    · subst hid
      rw [hfind]
      have : nonTerminalTurn r.status = false := by
        rcases hcases with h | h | h <;> simp [h, nonTerminalTurn]
      simp [this, hfind]
    · cases hf2 : tbl.find? (fun t => t.id == id2) with
      | none => simpa using hfind
      | some row2 =>
        have hne : ¬(r.id = id2) := by rw [hrid]; exact fun h => hid h.symm
        cases hnt : nonTerminalTurn row2.status with
        | false => simpa [hnt] using hfind
        | true =>
          simp only [hnt, Bool.not_true, Bool.false_eq_true, if_false, ite_true, Bool.true_eq_false]
          split
          · exact find?_id_map_turn tbl rid r hfind _ (fun t => by split <;> rfl)
              (by simp [hne])
          · exact find?_id_map_turn tbl rid r hfind _ (fun t => by split <;> rfl)
              (by simp [hne])
  · refine find?_id_map_turn tbl rid r hfind _ (fun t => by split <;> rfl) ?_
    have : nonTerminalTurn r.status = false := by
      rcases hcases with h | h | h <;> simp [h, nonTerminalTurn]
    simp [this]
  · unfold abortTurnsForSession
    split
    · exact hfind
    · refine find?_id_map_turn tbl rid r hfind _ (fun t => by split <;> rfl) ?_
      have : nonTerminalTurn r.status = false := by
        rcases hcases with h | h | h <;> simp [h, nonTerminalTurn]
      simp [this]

/-- Witness for C3 at a concrete delivered turn row. -/
theorem turn_terminal_states_final_witness :
    let r : TurnRow :=
      { id := "t1", channel := "telegram", account_id := "acct-1", session_key := "sk-1",
        payload := {}, accepted_at := 0, updated_at := 0, status := .delivered,
        next_attempt_at := 0 }
    (markTurnRunning "t1" 9 [r]).find? (fun t => t.id == "t1") = some r ∧
    (markTurnDeliveryPending "t1" 9 [r]).find? (fun t => t.id == "t1") = some r ∧
    (finalizeTurn "t1" .aborted 9 [r]).find? (fun t => t.id == "t1") = some r ∧
    ((recordTurnRecoveryFailure "t1" "late error" 9 15000 [r]).2).find?
      (fun t => t.id == "t1") = some r ∧
    (failStaleTurns 1 9 [r]).find? (fun t => t.id == "t1") = some r ∧
    (abortTurnsForSession "sk-1" 9 [r]).find? (fun t => t.id == "t1") = some r :=
  turn_terminal_states_final [_] "t1" "t1" "sk-1" "late error" .aborted 9 1 15000 _
    (by decide) (by decide)

/-! ## Claim C4 -/

/-- Claim C4: `failDelivery(id, err)` on an existing row — a permanent
error (one of the eight case-insensitive patterns) terminalizes the row
with `error_class='permanent'` and the attempt count untouched; a
transient error increments the attempt count by exactly one, terminalizes
with `error_class='terminal'` when the new count reaches
`MAX_RETRIES = 5`, and otherwise re-schedules as `failed_retryable` with
`last_attempt_at = now` and `next_attempt_at = now + backoff(newCount)`. -/
theorem failDelivery_spec (s : LifecycleState) (oid err : String) (now : Int) (row : OutboxRow)
    (hfind : s.outbox.find? (fun q => q.id == oid) = some row) :
    (isPermanentDeliveryError err = true →
      (failDelivery oid err now s).outbox.find? (fun q => q.id == oid) =
        some { row with status := .failed_terminal, error_class := some "permanent",
                        last_error := some err, completed_at := some now,
                        terminal_reason := some err }) ∧
    (isPermanentDeliveryError err = false →
      (row.attempt_count + 1 ≥ MAX_RETRIES →
        (failDelivery oid err now s).outbox.find? (fun q => q.id == oid) =
          some { row with status := .failed_terminal, error_class := some "terminal",
                          attempt_count := row.attempt_count + 1, last_error := some err,
                          last_attempt_at := some now, completed_at := some now,
                          terminal_reason := some err }) ∧
      (row.attempt_count + 1 < MAX_RETRIES →
        (failDelivery oid err now s).outbox.find? (fun q => q.id == oid) =
          some { row with status := .failed_retryable, attempt_count := row.attempt_count + 1,
                          last_error := some err, last_attempt_at := some now,
                          next_attempt_at := now + computeBackoffMs (row.attempt_count + 1) })) := by
  have hrid : row.id = oid := by
    have h1 := List.find?_some hfind
    exact eq_of_beq h1
  refine ⟨fun hperm => ?_, fun htrans => ⟨fun hcap => ?_, fun hlow => ?_⟩⟩
  · unfold failDelivery
    rw [hfind]
    simp only [hperm, if_true]
    have := find?_id_map_outbox s.outbox oid row hfind
      (fun q => if q.id = oid then
        { q with status := .failed_terminal, error_class := some "permanent",
                 last_error := some err, completed_at := some now,
                 terminal_reason := some err }
        else q) (fun t => by dsimp only; split <;> rfl)
    simpa [hrid] using this
  · unfold failDelivery
    rw [hfind]
    simp only [htrans, Bool.false_eq_true, if_false]
    rw [if_pos hcap]
    have := find?_id_map_outbox s.outbox oid row hfind
      (fun q => if q.id = oid then
        { q with status := .failed_terminal, error_class := some "terminal",
                 attempt_count := row.attempt_count + 1, last_error := some err,
                 last_attempt_at := some now, completed_at := some now,
                 terminal_reason := some err }
        else q) (fun t => by dsimp only; split <;> rfl)
    simpa [hrid] using this
  · unfold failDelivery
    rw [hfind]
    simp only [htrans, Bool.false_eq_true, if_false]
    rw [if_neg (by omega)]
    have := find?_id_map_outbox s.outbox oid row hfind
      (fun q => if q.id = oid then
        { q with status := .failed_retryable, attempt_count := row.attempt_count + 1,
                 last_error := some err, last_attempt_at := some now,
                 next_attempt_at := now + computeBackoffMs (row.attempt_count + 1) }
        else q) (fun t => by dsimp only; split <;> rfl)
    simpa [hrid] using this

/-- Witness for C4: a permanent error and a first transient error on a
concrete queued row. -/
theorem failDelivery_spec_witness :
    let r : OutboxRow :=
      { id := "w4", channel := "telegram",
        payload := .ok { channel := "telegram", «to» := "chat-1" },
        queued_at := 0, status := .queued, next_attempt_at := 0 }
    ((failDelivery "w4" "403 Chat Not Found" 9
        { turns := [], outbox := [r] }).outbox.find? (fun q => q.id == "w4") =
      some { r with status := .failed_terminal, error_class := some "permanent",
                    last_error := some "403 Chat Not Found", completed_at := some 9,
                    terminal_reason := some "403 Chat Not Found" }) ∧
    ((failDelivery "w4" "network timeout" 9
        { turns := [], outbox := [r] }).outbox.find? (fun q => q.id == "w4") =
      some { r with status := .failed_retryable, attempt_count := 1,
                    last_error := some "network timeout", last_attempt_at := some 9,
                    next_attempt_at := 9 + computeBackoffMs 1 }) :=
  ⟨(failDelivery_spec { turns := [], outbox := [_] } "w4" "403 Chat Not Found" 9 _
      (by decide)).1 (by decide),
   ((failDelivery_spec { turns := [], outbox := [_] } "w4" "network timeout" 9 _
      (by decide)).2 (by decide)).2 (by decide)⟩

/-! ## Claim C5 -/

/-- Claim C5: `ackDelivery(id)` on an existing row marks it `delivered`
with `delivered_at = completed_at = now`; when the row carries a non-null
`turn_id`, the owning turn is finalized as delivered exactly when, after
the update, its outbox has no queued/failed_retryable rows, at least one
delivered row and no failed_terminal/expired row (for a turn row that is
currently non-terminal, its status becomes `delivered` iff that
condition holds). -/
theorem ackDelivery_spec (s : LifecycleState) (oid : String) (now : Int) (row : OutboxRow)
    (hfind : s.outbox.find? (fun q => q.id == oid) = some row) :
    ((ackDelivery oid now s).outbox.find? (fun q => q.id == oid) =
      some { row with status := .delivered, delivered_at := some now,
                      completed_at := some now }) ∧
    (truthyTurnId row.turn_id = none → (ackDelivery oid now s).turns = s.turns) ∧
    (∀ t, truthyTurnId row.turn_id = some t →
      (ackDelivery oid now s).turns =
        (if (getOutboxStatusForTurn t (ackDelivery oid now s).outbox).queued = 0 ∧
            (getOutboxStatusForTurn t (ackDelivery oid now s).outbox).delivered > 0 ∧
            (getOutboxStatusForTurn t (ackDelivery oid now s).outbox).failed = 0 then
          finalizeTurn t .delivered now s.turns
        else s.turns)) ∧
    (∀ t trow, truthyTurnId row.turn_id = some t →
      s.turns.find? (fun u => u.id == t) = some trow →
      nonTerminalTurn trow.status = true →
      (((ackDelivery oid now s).turns.find? (fun u => u.id == t) =
          some { trow with status := .delivered, updated_at := now,
                           completed_at := some now }) ↔
        ((getOutboxStatusForTurn t (ackDelivery oid now s).outbox).queued = 0 ∧
         (getOutboxStatusForTurn t (ackDelivery oid now s).outbox).delivered > 0 ∧
         (getOutboxStatusForTurn t (ackDelivery oid now s).outbox).failed = 0))) := by
  have hrid : row.id = oid := by
    have h1 := List.find?_some hfind
    exact eq_of_beq h1
  have houtbox : (ackDelivery oid now s).outbox =
      s.outbox.map (fun r =>
        if r.id = oid then
          { r with status := .delivered, delivered_at := some now, completed_at := some now }
        else r) := by
    simp [ackDelivery]
  refine ⟨?_, ?_, ?_, ?_⟩
  · rw [houtbox]
    have := find?_id_map_outbox s.outbox oid row hfind
      (fun r => if r.id = oid then
        { r with status := .delivered, delivered_at := some now, completed_at := some now }
        else r) (fun t => by dsimp only; split <;> rfl)
    simpa [hrid] using this
  · intro hnone
    simp [ackDelivery, hfind, hnone]
  · intro t ht
    simp [ackDelivery, hfind, ht, maybeFinalizeTurnDelivered, getOutboxStatusForTurn]
  · intro t trow ht htfind hnt
    have hmain : (ackDelivery oid now s).turns =
        (if (getOutboxStatusForTurn t (ackDelivery oid now s).outbox).queued = 0 ∧
            (getOutboxStatusForTurn t (ackDelivery oid now s).outbox).delivered > 0 ∧
            (getOutboxStatusForTurn t (ackDelivery oid now s).outbox).failed = 0 then
          finalizeTurn t .delivered now s.turns
        else s.turns) := by
      simp [ackDelivery, hfind, ht, maybeFinalizeTurnDelivered, getOutboxStatusForTurn]
    have htid : trow.id = t := by
      have h1 := List.find?_some htfind
      exact eq_of_beq h1
    by_cases hcond :
        (getOutboxStatusForTurn t (ackDelivery oid now s).outbox).queued = 0 ∧
        (getOutboxStatusForTurn t (ackDelivery oid now s).outbox).delivered > 0 ∧
        (getOutboxStatusForTurn t (ackDelivery oid now s).outbox).failed = 0
    · rw [hmain, if_pos hcond]
      refine iff_of_true ?_ hcond
      unfold finalizeTurn
      have himg := find?_id_map_turn_img s.turns t trow htfind
        (fun r => if r.id = t ∧ nonTerminalTurn r.status then
          { r with status := mapTerminalStatus .delivered, updated_at := now,
                   completed_at := some now }
          else r) (fun u => by dsimp only; split <;> rfl)
      rw [himg]
      congr 1
      dsimp only
      rw [if_pos ⟨htid, hnt⟩]
      rfl
    · rw [hmain, if_neg hcond]
      refine iff_of_false ?_ hcond
      rw [htfind]
      intro heq
      have hst : trow.status = TurnStatus.delivered := by
        simpa using congrArg TurnRow.status (Option.some.inj heq)
      rw [hst] at hnt
      simp [nonTerminalTurn] at hnt

/-- Witness for C5: acking the only outbox row of a running turn
finalizes the turn as delivered. -/
theorem ackDelivery_spec_witness :
    ((ackDelivery "d1" 5
        { turns := [{ id := "T", channel := "telegram", account_id := "", session_key := "sk",
                      payload := {}, accepted_at := 0, updated_at := 0, status := .running,
                      next_attempt_at := 0 }],
          outbox := [{ id := "d1", turn_id := some "T", channel := "telegram",
                       payload := .ok { channel := "telegram", «to» := "chat-1" },
                       queued_at := 0, status := .queued, next_attempt_at := 0 }] }).turns.find?
      (fun u => u.id == "T")) =
      some { id := "T", channel := "telegram", account_id := "", session_key := "sk",
             payload := {}, accepted_at := 0, updated_at := 5, status := .delivered,
             next_attempt_at := 0, completed_at := some 5 } :=
  ((ackDelivery_spec
      { turns := [{ id := "T", channel := "telegram", account_id := "", session_key := "sk",
                    payload := {}, accepted_at := 0, updated_at := 0, status := .running,
                    next_attempt_at := 0 }],
        outbox := [{ id := "d1", turn_id := some "T", channel := "telegram",
                     payload := .ok { channel := "telegram", «to» := "chat-1" },
                     queued_at := 0, status := .queued, next_attempt_at := 0 }] }
      "d1" 5
      { id := "d1", turn_id := some "T", channel := "telegram",
        payload := .ok { channel := "telegram", «to» := "chat-1" },
        queued_at := 0, status := .queued, next_attempt_at := 0 }
      (by decide)).2.2.2 "T"
      { id := "T", channel := "telegram", account_id := "", session_key := "sk",
        payload := {}, accepted_at := 0, updated_at := 0, status := .running,
        next_attempt_at := 0 }
      (by decide) (by decide) (by decide)).mpr (by decide)

/-! ## Claim C6 -/

/-- Claim C6 counterexample: when the reply generator throws after a
turn was admitted, the driver drains the dispatcher and re-raises the
error, but does not call `recordTurnRecoveryFailure`: the turn row stays
in status `running`, not `failed_retryable` as the claim requires. -/
theorem dispatch_throw_leaves_turn_running_cex :
    let ctx : MsgContext :=
      { OriginatingChannel := some "telegram", AccountId := some "acct-1",
        MessageSid := some "msg-1", OriginatingTo := some "chat-1", To := some "chat-1",
        From := some "user-1", SessionKey := some "sk-1", Body := some "hello" }
    let out := dispatchInboundTracked ctx "t1" 0 (.error "boom") { turns := [], outbox := [] }
    out.1 = .error "boom" ∧
    out.2.2 = [.markComplete, .waitForIdle] ∧
    (out.2.1.turns.map (fun r => r.status)) = [.running] ∧
    ¬ (out.2.1.turns.map (fun r => r.status)) = [.failed_retryable] := by decide

/-- Claim C6 amended: on a generator throw the driver drains the
dispatcher (`markComplete` then `waitForIdle`, via the finally block of
`withReplyDispatcher`) and re-raises the same error; it leaves the
outbox untouched and leaves the freshly admitted turn row exactly as
`acceptTurn` inserted it — status `running` — calling no
`recordTurnRecoveryFailure` (the turn-worker performs that recording
later, when a resumed dispatch of the orphaned turn fails). -/
theorem dispatch_throw_spec (ctx : MsgContext) (newId : String) (now : Int) (e : String)
    (s : LifecycleState) (hfresh : ∀ r ∈ s.turns, r.id ≠ newId) :
    (dispatchInboundTracked ctx newId now (.error e) s).1 = .error e ∧
    (dispatchInboundTracked ctx newId now (.error e) s).2.2 =
      [.markComplete, .waitForIdle] ∧
    (dispatchInboundTracked ctx newId now (.error e) s).2.1.outbox = s.outbox ∧
    (dispatchInboundTracked ctx newId now (.error e) s).2.1.turns.find?
      (fun r => r.id == newId) = some (mkAcceptedTurnRow ctx newId now none none) ∧
    (mkAcceptedTurnRow ctx newId now none none).status = .running := by
  have hT : dispatchInboundTracked ctx newId now (.error e) s =
      (.error e,
        { turns := markTurnRunning newId now (s.turns ++ [mkAcceptedTurnRow ctx newId now none none]),
          outbox := s.outbox },
        [.markComplete, .waitForIdle]) := by
    simp [dispatchInboundTracked, acceptTurn, disablePersistentDedupe]
  refine ⟨by rw [hT], by rw [hT], by rw [hT], ?_, rfl⟩
  rw [hT]
  show (markTurnRunning newId now
      (s.turns ++ [mkAcceptedTurnRow ctx newId now none none])).find?
      (fun r => r.id == newId) = some (mkAcceptedTurnRow ctx newId now none none)
  unfold markTurnRunning
  rw [find?_map_eq _ _ (fun a => by split <;> rfl), List.find?_append]
  have h1 : s.turns.find? (fun r => r.id == newId) = none :=
    List.find?_eq_none.mpr (fun x hx => by simpa using hfresh x hx)
  rw [h1]
  simp [mkAcceptedTurnRow]

/-- Witness for the C6 amended theorem on a concrete empty store. -/
theorem dispatch_throw_spec_witness :
    (dispatchInboundTracked { Body := some "hello" } "t6" 3 (.error "boom")
        { turns := [], outbox := [] }).1 = .error "boom" ∧
    (dispatchInboundTracked { Body := some "hello" } "t6" 3 (.error "boom")
        { turns := [], outbox := [] }).2.2 = [.markComplete, .waitForIdle] ∧
    (dispatchInboundTracked { Body := some "hello" } "t6" 3 (.error "boom")
        { turns := [], outbox := [] }).2.1.outbox = [] ∧
    (dispatchInboundTracked { Body := some "hello" } "t6" 3 (.error "boom")
        { turns := [], outbox := [] }).2.1.turns.find? (fun r => r.id == "t6") =
      some (mkAcceptedTurnRow { Body := some "hello" } "t6" 3 none none) ∧
    (mkAcceptedTurnRow { Body := some "hello" } "t6" 3 none none).status = .running :=
  dispatch_throw_spec { Body := some "hello" } "t6" 3 "boom" { turns := [], outbox := [] }
    (by decide)

/-! ## Claim C7 -/

/-- Claim C7 counterexample: for an entry whose `last_attempt_at`
precedes its enqueue time, the code measures the backoff from
`last_attempt_at` alone trather than from
`max(last_attempt_at, enqueued_at)`: at `now = 25010` the entry is
eligible although the claim's bound `max + backoff ≤ now` fails. -/
theorem eligibility_not_max_cex :
    let entry : QueuedDelivery :=
      { payload := { channel := "telegram", «to» := "chat-1" }, id := "e1",
        enqueuedAt := 1000, retryCount := 1, lastAttemptAt := some 10 }
    isEntryEligibleForRecoveryRetry entry 25010 = .eligible ∧
    ¬ (max (10 : Int) 1000 + computeBackoffMs (1 + 1) ≤ 25010) := by decide

/-- Backoff for any positive retry count is strictly positive. -/
theorem computeBackoffMs_pos (n : Nat) (h : 1 ≤ n) : 0 < computeBackoffMs n := by
  unfold computeBackoffMs
  rw [if_neg (by omega)]
  have hm : min (n - 1) (BACKOFF_MS.length - 1) = 0 ∨ min (n - 1) (BACKOFF_MS.length - 1) = 1 ∨
      min (n - 1) (BACKOFF_MS.length - 1) = 2 ∨ min (n - 1) (BACKOFF_MS.length - 1) = 3 := by
    simp [BACKOFF_MS]
    omega
  rcases hm with h2 | h2 | h2 | h2 <;> rw [h2] <;> decide

/-- Claim C7 amended: `computeBackoffMs` is 0 at 0 and follows the fixed
table (5 s, 25 s, 2 min, 10 min) clamped to the last entry; an entry
with `retryCount = 0` and no `last_attempt_at` is always eligible, and
otherwise eligibility holds iff `base + backoff(retryCount + 1) ≤ now`,
where `base` is `last_attempt_at` when that is a positive timestamp and
the enqueue time otherwise (not the max of the two). -/
theorem backoff_eligibility_spec :
    (computeBackoffMs 0 = 0 ∧ computeBackoffMs 1 = 5000 ∧ computeBackoffMs 2 = 25000 ∧
     computeBackoffMs 3 = 120000 ∧ computeBackoffMs 4 = 600000 ∧
     ∀ n : Nat, 4 ≤ n → computeBackoffMs n = 600000) ∧
    ∀ (entry : QueuedDelivery) (now : Int),
      (entry.retryCount = 0 ∧ entry.lastAttemptAt = none →
        isEntryEligibleForRecoveryRetry entry now = .eligible) ∧
      (¬ (entry.retryCount = 0 ∧ entry.lastAttemptAt = none) →
        (isEntryEligibleForRecoveryRetry entry now = .eligible ↔
          recoveryBase entry + computeBackoffMs (entry.retryCount + 1) ≤ now)) := by
  constructor
  · refine ⟨by decide, by decide, by decide, by decide, by decide, ?_⟩
    intro n hn
    unfold computeBackoffMs
    rw [if_neg (by omega)]
    have hm : min (n - 1) (BACKOFF_MS.length - 1) = 3 := by
      simp [BACKOFF_MS]
      omega
    rw [hm]
    decide
  · intro entry now
    have hpos := computeBackoffMs_pos (entry.retryCount + 1) (by omega)
    constructor
    · intro hfirst
      unfold isEntryEligibleForRecoveryRetry
      rw [if_neg (by omega), if_pos hfirst]
    · intro hno
      unfold isEntryEligibleForRecoveryRetry
      rw [if_neg (by omega), if_neg hno]
      have hbase :
          (if (match entry.lastAttemptAt with
               | some t => decide (t > 0)
               | none => false) = true then
            entry.lastAttemptAt.getD entry.enqueuedAt
          else entry.enqueuedAt) = recoveryBase entry := by
        unfold recoveryBase
        cases hla : entry.lastAttemptAt with
        | none => simp
        | some t =>
          by_cases hpos2 : t > 0
          · simp [hpos2]
          · simp [hpos2]
      dsimp only
      rw [hbase]
      by_cases hge : now ≥ recoveryBase entry + computeBackoffMs (entry.retryCount + 1)
      · rw [if_pos hge]
        exact iff_of_true rfl hge
      · rw [if_neg hge]
        refine iff_of_false (by simp) hge

/-- Witness for C7: the clamp beyond the table and both eligibility
branches at concrete entries. -/
theorem backoff_eligibility_spec_witness :
    computeBackoffMs 9 = 600000 ∧
    isEntryEligibleForRecoveryRetry
      { payload := { channel := "telegram", «to» := "chat-1" }, id := "w7",
        enqueuedAt := 100, retryCount := 0 } 0 = .eligible ∧
    (isEntryEligibleForRecoveryRetry
      { payload := { channel := "telegram", «to» := "chat-1" }, id := "w7b",
        enqueuedAt := 100, retryCount := 1, lastAttemptAt := some 50 } 30000 = .eligible ↔
      recoveryBase
          { payload := { channel := "telegram", «to» := "chat-1" }, id := "w7b",
            enqueuedAt := 100, retryCount := 1, lastAttemptAt := some 50 } +
        computeBackoffMs 2 ≤ 30000) :=
  ⟨backoff_eligibility_spec.1.2.2.2.2.2 9 (by decide),
   (backoff_eligibility_spec.2
      { payload := { channel := "telegram", «to» := "chat-1" }, id := "w7",
        enqueuedAt := 100, retryCount := 0 } 0).1 (by exact ⟨rfl, rfl⟩),
   (backoff_eligibility_spec.2
      { payload := { channel := "telegram", «to» := "chat-1" }, id := "w7b",
        enqueuedAt := 100, retryCount := 1, lastAttemptAt := some 50 } 30000).2 (by decide)⟩

/-! ## Claim C8 -/

/-- The accumulated entries of the `loadPendingDeliveries` loop are the
parseable selected rows in order. -/
theorem loadPending_fold_entries (now : Int) (rows : List OutboxRow) :
    ∀ (acc : List QueuedDelivery) (t : List OutboxRow),
      (rows.foldl (loadPendingStep now) (acc, t)).1 = acc ++ rows.filterMap pendingEntryOf := by
  induction rows with
  | nil => intro acc t; simp
  | cons r rs ih =>
    intro acc t
    cases hp : r.payload with
    | ok p =>
      simp [List.foldl_cons, loadPendingStep, hp, pendingEntryOf, ih]
    | error m =>
      simp [List.foldl_cons, loadPendingStep, hp, pendingEntryOf, ih]

/-- The SQL OR-form of the startup-cutoff clause is the claim's
not-(never-attempted-after-cutoff) form. -/
theorem pendingSelect_eq_claim (now s : Int) (r : OutboxRow) :
    pendingSelect now (some s) r = pendingClaimPred now s r := by
  simp only [pendingSelect, pendingSelectBase, pendingCutoffOk, pendingClaimPred, ← Bool.decide_and]
  apply decide_eq_decide.mpr
  constructor
  · rintro ⟨hb, hc⟩
    refine ⟨hb.1, hb.2, ?_⟩
    rintro ⟨hq, ha, hl⟩
    rcases hc with h | h | h
    · omega
    · exact h hl
    · omega
  · rintro ⟨h1, h2, h3⟩
    refine ⟨⟨h1, h2⟩, ?_⟩
    by_cases hq : r.queued_at < s
    · exact Or.inl hq
    · by_cases hl : r.last_attempt_at = none
      · right; right
        by_contra hac
        exact h3 ⟨by omega, by omega, hl⟩
      · exact Or.inr (Or.inl hl)

/-- An entry inherits its enqueue time from its row. -/
theorem pendingEntryOf_enqueuedAt (r : OutboxRow) (e : QueuedDelivery)
    (h : pendingEntryOf r = some e) : e.enqueuedAt = r.queued_at := by
  unfold pendingEntryOf at h
  cases hp : r.payload with
  | ok p =>
    rw [hp] at h
    cases h
    rfl
  | error m => rw [hp] at h; cases h

/-- An entry inherits its id from its row. -/
theorem pendingEntryOf_id (r : OutboxRow) (e : QueuedDelivery)
    (h : pendingEntryOf r = some e) : e.id = r.id := by
  unfold pendingEntryOf at h
  cases hp : r.payload with
  | ok p =>
    rw [hp] at h
    cases h
    rfl
  | error m => rw [hp] at h; cases h

/-- Claim C8 counterexample: a row that satisfies the claimed selection
predicate (active, due, inserted before the cutoff) but whose payload
does not parse is absent from the returned list, so the function does
not return exactly the selected rows. -/
theorem loadPending_missing_selected_row_cex :
    let r : OutboxRow :=
      { id := "b1", channel := "telegram", payload := .error "Unexpected token u in JSON",
        queued_at := 0, status := .queued, next_attempt_at := 0 }
    (r.status = .queued ∧ r.next_attempt_at ≤ (5 : Int) ∧
      ¬ (r.queued_at ≥ (10 : Int) ∧ r.attempt_count = 0 ∧ r.last_attempt_at = none)) ∧
    (loadPendingDeliveries [r] 5 (some 10)).1 = [] := by decide

/-- Claim C8 amended: with a startup cutoff `S`, the returned entries are
exactly the rows in `queued`/`failed_retryable` with
`next_attempt_at ≤ now` — excluding rows with `queued_at ≥ S`,
`attempt_count = 0` and `last_attempt_at` NULL, and excluding rows whose
payload fails to parse (those are terminalized instead) — in `queued_at`
ascending order. -/
theorem loadPendingDeliveries_spec (tbl : List OutboxRow) (now s : Int) :
    (loadPendingDeliveries tbl now (some s)).1 =
      ((sortByQueuedAt tbl).filter (pendingClaimPred now s)).filterMap pendingEntryOf ∧
    List.Sorted (fun a b => a.enqueuedAt ≤ b.enqueuedAt)
      (loadPendingDeliveries tbl now (some s)).1 := by
  have hfun : pendingSelect now (some s) = pendingClaimPred now s :=
    funext (pendingSelect_eq_claim now s)
  have hentries : (loadPendingDeliveries tbl now (some s)).1 =
      ((sortByQueuedAt tbl).filter (pendingClaimPred now s)).filterMap pendingEntryOf := by
    unfold loadPendingDeliveries
    rw [loadPending_fold_entries, hfun]
    simp
  refine ⟨hentries, ?_⟩
  rw [hentries]
  haveI : IsTotal OutboxRow (fun a b => a.queued_at ≤ b.queued_at) :=
    ⟨fun a b => le_total a.queued_at b.queued_at⟩
  haveI : IsTrans OutboxRow (fun a b => a.queued_at ≤ b.queued_at) :=
    ⟨fun a b c hab hbc => le_trans hab hbc⟩
  have hsorted : List.Sorted (fun a b => a.queued_at ≤ b.queued_at) (sortByQueuedAt tbl) :=
    List.sorted_insertionSort _ tbl
  have hsorted2 := hsorted.filter (pendingClaimPred now s)
  rw [List.Sorted, List.pairwise_filterMap]
  refine hsorted2.imp ?_
  intro a b hab x hx y hy
  rw [pendingEntryOf_enqueuedAt a x hx, pendingEntryOf_enqueuedAt b y hy]
  exact hab

/-! ## Claim C10 -/

/-- A property closed under the invalid-payload terminal write is
preserved, for rows of one id, by the rest of the load loop. -/
theorem loadPending_fold_invalid_preserves (now : Int) (x : String)
    (P : OutboxRow → Prop) (hP : ∀ msg q, P (invalidPayloadUpdate msg now q))
    (rows : List OutboxRow) :
    ∀ (acc : List QueuedDelivery) (t : List OutboxRow), (∀ q ∈ t, q.id = x → P q) →
      ∀ q ∈ (rows.foldl (loadPendingStep now) (acc, t)).2, q.id = x → P q := by
  induction rows with
  | nil => intro acc t h; simpa using h
  | cons r rs ih =>
    intro acc t h
    cases hp : r.payload with
    | ok p =>
      simp only [List.foldl_cons, loadPendingStep, hp]
      exact ih _ _ h
    | error m =>
      simp only [List.foldl_cons, loadPendingStep, hp]
      apply ih
      intro q hq hqx
      rcases List.mem_map.mp hq with ⟨q0, hq0, rfl⟩
      by_cases hid : q0.id = r.id
      · rw [if_pos hid]
        exact hP m q0
      · rw [if_neg hid]
        rw [if_neg hid] at hqx
        exact h q0 hq0 hqx

/-- After the loop has processed a selected row with an unparseable
payload, every row of that id in the table satisfies the terminal-write
property. -/
theorem loadPending_invalid_after_step (now : Int) (m : String) (r : OutboxRow)
    (P : OutboxRow → Prop) (hP : ∀ msg q, P (invalidPayloadUpdate msg now q))
    (t : List OutboxRow) :
    ∀ q ∈ t.map (fun q0 => if q0.id = r.id then invalidPayloadUpdate m now q0 else q0),
      q.id = r.id → P q := by
  intro q hq hqx
  rcases List.mem_map.mp hq with ⟨q0, hq0, rfl⟩
  by_cases hid : q0.id = r.id
  · rw [if_pos hid]
    exact hP m q0
  · rw [if_neg hid] at hqx
    exact absurd hqx hid

/-- Claim C10: a selected outbox row whose stored payload does not parse
contributes no entry to the returned list, and the row is updated in
place to `failed_terminal` with `error_class='terminal'` and a
`terminal_reason` beginning with `invalid payload:`. -/
theorem loadPending_terminalizes_invalid_payload
    (tbl : List OutboxRow) (now : Int) (cutoff : Option Int) (r : OutboxRow) (msg : String)
    (hmem : r ∈ tbl) (hsel : pendingSelect now cutoff r = true)
    (hbad : r.payload = .error msg)
    (hnodup : (tbl.map (fun q => q.id)).Nodup) :
    (∀ e ∈ (loadPendingDeliveries tbl now cutoff).1, e.id ≠ r.id) ∧
    (∀ q ∈ (loadPendingDeliveries tbl now cutoff).2, q.id = r.id →
      q.status = .failed_terminal ∧ q.error_class = some "terminal" ∧
      ∃ m, q.terminal_reason = some ("invalid payload: " ++ m)) := by
  have hperm := List.perm_insertionSort
    (fun a b : OutboxRow => a.queued_at ≤ b.queued_at) tbl
  have hrows : r ∈ (sortByQueuedAt tbl).filter (pendingSelect now cutoff) :=
    List.mem_filter.mpr ⟨hperm.mem_iff.mpr hmem, hsel⟩
  constructor
  · intro e he heid
    have hentries : (loadPendingDeliveries tbl now cutoff).1 =
        ((sortByQueuedAt tbl).filter (pendingSelect now cutoff)).filterMap pendingEntryOf := by
      unfold loadPendingDeliveries
      rw [loadPending_fold_entries]
      simp
    rw [hentries] at he
    rcases List.mem_filterMap.mp he with ⟨r2, hr2, hent⟩
    have hr2mem : r2 ∈ tbl :=
      hperm.mem_iff.mp (List.mem_filter.mp hr2).1
    have hr2id : r2.id = r.id := by rw [← pendingEntryOf_id r2 e hent, heid]
    have hr2eq : r2 = r := List.inj_on_of_nodup_map hnodup hr2mem hmem hr2id
    rw [hr2eq] at hent
    unfold pendingEntryOf at hent
    rw [hbad] at hent
    cases hent
  · have hP : ∀ msg2 q, (invalidPayloadUpdate msg2 now q).status = .failed_terminal ∧
        (invalidPayloadUpdate msg2 now q).error_class = some "terminal" ∧
        ∃ m, (invalidPayloadUpdate msg2 now q).terminal_reason =
          some ("invalid payload: " ++ m) :=
      fun msg2 q => ⟨rfl, rfl, msg2, rfl⟩
    rcases List.append_of_mem hrows with ⟨l1, l2, hsplit⟩
    unfold loadPendingDeliveries
    rw [hsplit, List.foldl_append, List.foldl_cons]
    set mid := l1.foldl (loadPendingStep now) ([], tbl) with hmid
    have hstep : loadPendingStep now mid r =
        (mid.1, mid.2.map (fun q0 => if q0.id = r.id then invalidPayloadUpdate msg now q0
          else q0)) := by
      unfold loadPendingStep
      rw [hbad]
    rw [hstep]
    exact loadPending_fold_invalid_preserves now r.id _
      (fun m2 q => hP m2 q) l2 mid.1 _
      (loadPending_invalid_after_step now msg r _ (fun m2 q => hP m2 q) mid.2)

/-- Witness for C10 at a one-row table whose payload is corrupt. -/
theorem loadPending_terminalizes_invalid_payload_witness :
    (invalidPayloadUpdate "Unexpected token" 5
        { id := "b1", channel := "telegram", payload := .error "Unexpected token",
          queued_at := 0, status := .queued, next_attempt_at := 0 }).status =
      OutboxStatus.failed_terminal ∧
    (invalidPayloadUpdate "Unexpected token" 5
        { id := "b1", channel := "telegram", payload := .error "Unexpected token",
          queued_at := 0, status := .queued, next_attempt_at := 0 }).error_class =
      some "terminal" :=
  have h := loadPending_terminalizes_invalid_payload
    [{ id := "b1", channel := "telegram", payload := .error "Unexpected token",
       queued_at := 0, status := .queued, next_attempt_at := 0 }] 5 (some 10)
    { id := "b1", channel := "telegram", payload := .error "Unexpected token",
      queued_at := 0, status := .queued, next_attempt_at := 0 } "Unexpected token"
    (by decide) (by decide) (by decide) (by decide)
  have h2 := h.2 (invalidPayloadUpdate "Unexpected token" 5
    { id := "b1", channel := "telegram", payload := .error "Unexpected token",
      queued_at := 0, status := .queued, next_attempt_at := 0 }) (by decide) (by decide)
  ⟨h2.1, h2.2.1⟩

/-! ## Claim C9 -/

/-- Null-fallback on the right is the identity. -/
theorem nullish_none (a : Option String) : nullish a none = a := by
  cases a <;> rfl

/-- The account-id fallback from the row column collapses to plain
normalisation: the column already holds the trimmed account id. -/
theorem accountId_norm (a : Option String) :
    nullish (normStr a)
      (if jsTrim ((a.map jsTrim).getD "") ≠ "" then
        some ((a.map jsTrim).getD "") else none) =
      normStr a := by
  have h0 : jsTrim "" = "" := by decide
  cases a with
  | none => decide
  | some x =>
    by_cases hx : jsTrim x = ""
    · simp [normStr, hx, nullish, h0]
    · simp [normStr, hx, nullish]

/-- Claim C9 counterexample: hydration normalises the stored context, so
the round trip is not the identity on the canonical field set — a body
with surrounding blanks comes back trimmed. -/
theorem hydrate_roundtrip_not_identity_cex :
    let ctx : MsgContext :=
      { Body := some " hi ", OriginatingChannel := some "telegram",
        OriginatingTo := some "chat-1", To := some "chat-1" }
    (hydrateTurnContext (mkAcceptedTurnRow ctx "t9" 0 none none)).isSome = true ∧
    hydrateTurnContext (mkAcceptedTurnRow ctx "t9" 0 none none) ≠ some ctx ∧
    (hydrateTurnContext (mkAcceptedTurnRow ctx "t9" 0 none none)).bind (fun c => c.Body) =
      some "hi" ∧ ctx.Body = some " hi " := by decide

/-- Claim C9 amended: hydrating the row `acceptTurn` builds from
`buildStoredPayload(ctx)` yields exactly the normalisation `normCtx` of
`ctx` (trimming, blank-to-absent, destination/account/session fallbacks,
row id as `MessageTurnId`, thread-id round trip through its stored
string form), and yields null exactly when neither a resolved
destination nor an originating channel can be reconstructed. -/
theorem hydrate_roundtrip_spec (rowId : String) (now : Int) (ctx : MsgContext) :
    (hydrateTurnContext (mkAcceptedTurnRow ctx rowId now none none) = none ↔
      (resolvedOriginTo ctx = none ∨ resolvedOriginChannel ctx = none)) ∧
    (∀ oTo oCh, resolvedOriginTo ctx = some oTo → resolvedOriginChannel ctx = some oCh →
      hydrateTurnContext (mkAcceptedTurnRow ctx rowId now none none) =
        some (normCtx rowId ctx)) := by
  have hmatch : hydrateTurnContext (mkAcceptedTurnRow ctx rowId now none none) =
      (match resolvedOriginTo ctx, resolvedOriginChannel ctx with
       | some oTo, some oCh => some (hydratedCtx rowId ctx oTo oCh)
       | _, _ => none) := rfl
  constructor
  · rw [hmatch]
    rcases hT : resolvedOriginTo ctx with _ | oTo <;>
      rcases hC : resolvedOriginChannel ctx with _ | oCh <;> simp
  · intro oTo oCh hT hC
    rw [hmatch, hT, hC]
    dsimp only
    congr 1
    ext1 <;> dsimp only [hydratedCtx, normCtx] <;>
      first
        | rfl
        | exact hT.symm
        | exact hC.symm
        | exact nullish_none _
        | exact accountId_norm ctx.AccountId
        | (cases hTo2 : normStr ctx.To with
           | none => simp [nullish, hTo2, hT]
           | some v => simp [nullish, hTo2])

/-- Witness for C9 at a concrete context whose route reconstructs. -/
theorem hydrate_roundtrip_spec_witness :
    hydrateTurnContext
        (mkAcceptedTurnRow
          { Body := some " hi ", OriginatingChannel := some "telegram",
            OriginatingTo := some "chat-1", To := some "chat-1" } "t9" 0 none none) =
      some (normCtx "t9"
        { Body := some " hi ", OriginatingChannel := some "telegram",
          OriginatingTo := some "chat-1", To := some "chat-1" }) :=
  (hydrate_roundtrip_spec "t9" 0
      { Body := some " hi ", OriginatingChannel := some "telegram",
        OriginatingTo := some "chat-1", To := some "chat-1" }).2 "chat-1" "telegram"
    (by decide) (by decide)
end OpenClaw
